import Mathlib

/-!
Verification of the GraphRAG fusion-and-answer core (`app/graphrag_agent.py`).

The Python code is shallowly embedded: dictionaries become association
lists `List (String × String)`, Python string slicing/`lower`/`replace`/
`split` become executable functions over `String`/`List Char`, floats
become `ℚ`, the Neo4j and Ollama calls become injected oracles returning
`Except String _` (an `error` models a raised exception caught at the
component boundary), and Cypher `LIMIT n` becomes `List.take n` on the
rows the store would return.
-/

namespace GraphRAG

/-- The apostrophe character, spliced into string literals. -/
def aposC : Char := Char.ofNat 39

/-- The apostrophe as a one-character string. -/
def apos : String := String.singleton aposC

/-- Python `s[:n]` on a `str`: the first `n` code points. -/
def pySlice (s : String) (n : Nat) : String := ⟨s.data.take n⟩

/-- Python `s.lower()` (ASCII case mapping suffices for the inputs used here). -/
def pyLower (s : String) : String := ⟨s.data.map Char.toLower⟩

/-- Python `s.upper()` (ASCII case mapping suffices for the inputs used here). -/
def pyUpper (s : String) : String := ⟨s.data.map Char.toUpper⟩

/-- Python `s.replace(c, "")` for a single character `c`: delete every occurrence. -/
def pyDelete (s : String) (c : Char) : String := ⟨s.data.filter (· ≠ c)⟩

/-- Python `s.replace(a, b)` where `a` and `b` are single characters. -/
def pyReplaceChar (s : String) (a b : Char) : String :=
  ⟨s.data.map (fun c => if c = a then b else c)⟩

/-- Python `s.strip()`: drop leading and trailing whitespace. -/
def pyStrip (s : String) : String :=
  ⟨((s.data.dropWhile Char.isWhitespace).reverse.dropWhile Char.isWhitespace).reverse⟩

/-- Helper for `pySplitWs`: structural recursion over the character list,
accumulating the current (reversed) token. -/
def wordsAux : List Char → List Char → List String
  | [], cur => if cur.isEmpty then [] else [String.mk cur.reverse]
  | c :: cs, cur =>
    if c.isWhitespace then
      if cur.isEmpty then wordsAux cs [] else String.mk cur.reverse :: wordsAux cs []
    else wordsAux cs (c :: cur)

/-- Python `s.split()` with no argument: split on whitespace runs, dropping
empty tokens. -/
def pySplitWs (s : String) : List String := wordsAux s.data []

/-- The fixed bilingual stopword set of `_extract_keywords`
(graphrag_agent.py lines 189-197). -/
def stopwords : List String :=
  ["what", "who", "where", "when", "why", "how", "is", "are", "was",
   "were", "the", "a", "an", "and", "or", "but", "in", "on", "at",
   "to", "for", "of", "with", "by", "about", "tell", "me", "show",
   "give", "explain", "describe", "company", "companies", "stock",
   "quel", "quelle", "quels", "quelles", "est", "sont", "le", "la",
   "les", "un", "une", "des", "du", "de", "et", "ou", "mais", "dans",
   "sur", "pour", "avec", "par", "entreprise", "entreprises"]

/-- The token stream of `_extract_keywords` before filtering:
`query.lower().replace(chr(63), "").replace(chr(44), "").split()`
(graphrag_agent.py line 199). -/
def queryWords (query : String) : List String :=
  pySplitWs (pyDelete (pyDelete (pyLower query) '?') ',')

/-- `_extract_keywords` (graphrag_agent.py lines 186-202): keep the tokens
that are not stopwords and have length strictly greater than 2. -/
def extract_keywords (query : String) : List String :=
  (queryWords query).filter (fun w => ¬ stopwords.contains w ∧ w.length > 2)

/-! ### Vector retrieval (`_vector_search`, graphrag_agent.py lines 98-123) -/

/-- A Python `dict` of string properties, embedded as an association list
(first binding wins on lookup, as dict keys are unique). -/
abbrev Metad := List (String × String)

/-- Python `d.get(key, default)` on a string-valued dict. -/
def metaGetD (m : Metad) (key dflt : String) : String := (m.lookup key).getD dflt

/-- One VectorEvidence item as built by `_vector_search`
(the dict at graphrag_agent.py lines 111-116). -/
structure Evidence where
  content : String
  metadata : Metad
  relevance : ℚ
  sourceType : String
deriving DecidableEq, Repr

/-- The raw triple arrays the vector store returns
(`results["documents"/"metadatas"/"distances"]`); an absent document or
distance is `none`. -/
structure SearchResults where
  documents : List (Option String)
  metadatas : List Metad
  distances : List (Option ℚ)
deriving Repr

/-- `doc[:2000] if doc else ""` (line 112): Python truthiness makes both a
missing and an empty document give the empty string. -/
def contentOf (doc : Option String) : String :=
  match doc with
  | none => ""
  | some d => if d.isEmpty then "" else pySlice d 2000

/-- `1 - dist if dist else 0` (line 114): Python truthiness makes both a
missing and a zero distance give 0. -/
def relevanceOf (dist : Option ℚ) : ℚ :=
  match dist with
  | none => 0
  | some d => if d = 0 then 0 else 1 - d

/-- The evidence dict built for one `(doc, meta, dist)` triple
(graphrag_agent.py lines 111-116). -/
def mkEvidence (doc : Option String) (meta : Metad) (dist : Option ℚ) : Evidence :=
  { content := contentOf doc
    metadata := meta
    relevance := relevanceOf dist
    sourceType := "vector" }

/-- Python `zip` over three lists: truncates to the shortest. -/
def zip3 (as : List α) (bs : List β) (cs : List γ) : List (α × β × γ) :=
  ((as.zip bs).zip cs).map (fun p => (p.1.1, p.1.2, p.2))

/-- The body of `_vector_search` on a successful store call
(graphrag_agent.py lines 103-119). -/
def vectorEvidenceOf (r : SearchResults) : List Evidence :=
  (zip3 r.documents r.metadatas r.distances).map (fun t => mkEvidence t.1 t.2.1 t.2.2)

/-- `_vector_search` including its `except` branch (lines 121-123): a store
error yields the empty evidence list. -/
def vector_search (res : Except String SearchResults) : List Evidence :=
  match res with
  | .error _ => []
  | .ok r => vectorEvidenceOf r

/-! ### Context assembly (`_build_context`, graphrag_agent.py lines 204-238)

The knowledge-graph zone (lines 221-236: company name/ticker/sector/
industry/description and the locale-formatted market-cap and revenue
figures) is carried as its already-rendered list of part strings, since no
claim inspects its text; its `if graph_context:` guard is mirrored by the
emptiness test on that list. -/

/-- `meta.get("ticker", meta.get("section", "unknown"))` (line 217). -/
def sourceLabel (meta : Metad) : String :=
  metaGetD meta "ticker" (metaGetD meta "section" "unknown")

/-- The two parts appended for the `i`-th (1-indexed) vector evidence item
(graphrag_agent.py lines 218-219): the source marker, then the content
truncated to 1500 units. -/
def vectorParts (i : Nat) (ctx : Evidence) : List String :=
  ["\n[Source " ++ toString i ++ ": " ++ sourceLabel ctx.metadata ++ "]",
   pySlice ctx.content 1500]

/-- The full `parts` list of `_build_context` (lines 210-236). -/
def contextParts (vc : List Evidence) (graphParts : List String) : List String :=
  (if vc.isEmpty then [] else
    "=== DOCUMENT CONTEXT ===" ::
      vc.enum.flatMap (fun p => vectorParts (p.1 + 1) p.2)) ++
  (if graphParts.isEmpty then [] else
    "\n\n=== KNOWLEDGE GRAPH CONTEXT ===" :: graphParts)

/-- `_build_context`: `"\n".join(parts)` (line 238). -/
def build_context (vc : List Evidence) (graphParts : List String) : String :=
  String.intercalate "\n" (contextParts vc graphParts)

/-! ### Answer synthesis (`_generate_answer`, graphrag_agent.py lines 240-292)

`ollama.generate` is an injected oracle `llm : String → Except String
String` from the prompt to the model text; `.error` models a raised
exception, caught at line 290. -/

/-- The fixed refusal message (graphrag_agent.py line 250). -/
def refusalMsg : String :=
  "I don" ++ apos ++ "t have enough information to answer this question. " ++
  "Please ingest some documents first."

/-- The instruction prompt (graphrag_agent.py lines 252-268), with the
context truncated to 6000 units. -/
def buildPrompt (question context : String) : String :=
  "You are a helpful assistant answering questions based on the provided context.\n" ++
  "Use ONLY the information from the context below to answer. If the context doesn" ++
  apos ++ "t contain\nenough information, say so clearly.\n\nCONTEXT:\n" ++
  pySlice context 6000 ++
  "\n\nQUESTION: " ++ question ++
  "\n\nInstructions:\n1. Answer the question directly and concisely\n" ++
  "2. Reference specific sources when possible (e.g., \"According to [Source 1]...\")\n" ++
  "3. If multiple sources agree, mention that\n" ++
  "4. If you" ++ apos ++ "re uncertain, express that uncertainty\n" ++
  "5. Keep the answer focused and relevant\n\nANSWER:"

/-- One Citation dict (graphrag_agent.py lines 279-284). -/
structure Citation where
  source : String
  sectionLabel : String
  url : String
  relevance : ℚ
deriving DecidableEq, Repr

/-- Python `round(x, 3)`: round to 3 decimal places. (Float `round` ties to
even on the binary value; no claim exercises a tie, so nearest-integer
rounding on `ℚ` is used.) -/
def round3 (q : ℚ) : ℚ := (round (q * 1000) : ℤ) / 1000

/-- The citation built from one evidence item (lines 279-284): the `section`
and `url` dict keys are the `sectionLabel` and `url` fields here. -/
def citationOf (ctx : Evidence) : Citation :=
  { source := metaGetD ctx.metadata "ticker" "Unknown"
    sectionLabel := metaGetD ctx.metadata "section" "document"
    url := metaGetD ctx.metadata "url" ""
    relevance := round3 ctx.relevance }

/-- The citation-extraction loop of `_generate_answer` (lines 275-285): one
citation appended per evidence item whose metadata dict is truthy
(non-empty). -/
def extractCitations (vr : List Evidence) : List Citation :=
  vr.foldl (fun acc ctx => if ctx.metadata = [] then acc else acc ++ [citationOf ctx]) []

/-- `_generate_answer` (graphrag_agent.py lines 240-292). -/
def generate_answer (llm : String → Except String String)
    (question context : String) (vr : List Evidence) : String × List Citation :=
  if (pyStrip context).isEmpty then (refusalMsg, [])
  else
    match llm (buildPrompt question context) with
    | .ok resp => (pyStrip resp, extractCitations vr)
    | .error e => ("Error generating answer: " ++ e, [])

/-! ### Graph retrieval (`_graph_search`, graphrag_agent.py lines 125-184)

The two Cypher queries are injected as oracle methods of a `GraphStore`;
`.error` models a raised store exception, caught at lines 182-184. The
`LIMIT 3` / `LIMIT 10` clauses of the queries are `List.take` on the rows
the store would otherwise return. -/

/-- One GraphEntity dict (graphrag_agent.py lines 154-158); `data` is the
matched node's property map (`dict(record[...])`). -/
structure GEntity where
  type : String
  data : Metad
  sourceType : String
deriving DecidableEq, Repr

/-- One row of the one-hop path query (lines 164-169): `type(r)`,
`labels(target)[0]`, `target.name` (the latter may be null). -/
structure PathRow where
  relation : String
  targetType : String
  targetName : Option String
deriving DecidableEq, Repr

/-- One GraphPath dict (graphrag_agent.py lines 172-177). -/
structure GraphPath where
  source : String
  relation : String
  targetType : String
  target : Option String
deriving DecidableEq, Repr

/-- The graph store as seen by `_graph_search`: the company keyword-match
query (lines 142-150) and the one-hop path query (lines 164-169). -/
structure GraphStore where
  matchCompanies : String → Except String (List Metad)
  pathsFrom : String → Except String (List PathRow)

/-- The entity dict appended for one matched company row (lines 153-158). -/
def entityOf (company : Metad) : GEntity :=
  { type := "Company", data := company, sourceType := "graph" }

/-- The keyword loop (graphrag_agent.py lines 140-158): for each keyword
run the company query (`LIMIT 3`) and append the matches. -/
def searchEntities (store : GraphStore) (kws : List String) :
    Except String (List GEntity) :=
  kws.foldlM (fun acc kw => do
    let rows ← store.matchCompanies kw
    pure (acc ++ (rows.take 3).map entityOf)) []

/-- The path dict built for one row of the one-hop query (lines 172-177). -/
def pathOf (ticker : String) (r : PathRow) : GraphPath :=
  { source := ticker, relation := r.relation
    targetType := r.targetType, target := r.targetName }

/-- The path phase (graphrag_agent.py lines 160-177): only when at least one
entity matched, and only from the first entity's ticker when that ticker is
truthy (present and non-empty), fetch up to 10 one-hop rows. -/
def searchPaths (store : GraphStore) (entities : List GEntity) :
    Except String (List GraphPath) :=
  match entities with
  | [] => pure []
  | e :: _ =>
    match e.data.lookup "ticker" with
    | none => pure []
    | some t =>
      if t.isEmpty then pure []
      else do
        let rows ← store.pathsFrom t
        pure ((rows.take 10).map (pathOf t))

/-- The `try` body of `_graph_search` (lines 135-180): keyword extraction
capped at 5, entity probes, then the single-anchor path fetch. -/
def graphSearchBody (store : GraphStore) (query : String) :
    Except String (List GEntity × List GraphPath) := do
  let entities ← searchEntities store ((extract_keywords query).take 5)
  let paths ← searchPaths store entities
  pure (entities, paths)

/-- `_graph_search` with its `except` boundary (lines 182-184): any store
error yields `([], [])`. -/
def graph_search (store : GraphStore) (query : String) :
    List GEntity × List GraphPath :=
  match graphSearchBody store query with
  | .ok r => r
  | .error _ => ([], [])

/-! ### Entity/relation ingestion (`add_entities_to_graph`, lines 294-359)

The graph state is the multiset-free view the Cypher `MERGE` semantics
guarantee: nodes keyed by `(label, name)`, edges keyed by
`(sourceName, relationType, targetName)`, both kept in insertion order.
The `try/except pass` around each `session.run` (lines 322-330, 344-353)
swallows per-item failures such as invalid interpolated labels; which
labels the store accepts is injected as the predicates `labelOk` /
`relTypeOk` (a rejected item is skipped and not counted, exactly as the
`except` branch skips the counter increment). The `SET` clauses stamping
`source` / `updated_at` are not modelled: no claim inspects node or edge
properties. -/

/-- The graph the ingestor writes to. -/
structure GState where
  nodes : List (String × String)
  edges : List (String × String × String)
deriving DecidableEq, Repr

/-- `MERGE (e:{label} {name: $name})` (lines 323-327): upsert a node keyed
by label and name. -/
def mergeNode (g : GState) (label name : String) : GState :=
  if (label, name) ∈ g.nodes then g
  else { g with nodes := g.nodes ++ [(label, name)] }

/-- Whether the graph has a node with the given name under any label, as
the unlabelled `MATCH (s {name: $name})` of line 346-347 requires. -/
def hasNodeNamed (g : GState) (name : String) : Bool :=
  g.nodes.any (fun ln => ln.2 = name)

/-- `MATCH (s {name}) MATCH (t {name}) MERGE (s)-[r:{rtype}]->(t)`
(lines 345-350): when both endpoints exist, upsert the edge; when a MATCH
finds nothing the query succeeds with no effect. -/
def mergeEdge (g : GState) (src rtype tgt : String) : GState :=
  if hasNodeNamed g src ∧ hasNodeNamed g tgt then
    if (src, rtype, tgt) ∈ g.edges then g
    else { g with edges := g.edges ++ [(src, rtype, tgt)] }
  else g

/-- One extracted entity dict: `entity.get("type", "Entity")` and
`entity.get("name", "")` (lines 316-317). -/
structure PyEntity where
  type : Option String
  name : Option String
deriving DecidableEq, Repr

/-- One extracted relation dict: `rel.get("source"/"target", "")` and
`rel.get("relation", "RELATED_TO")` (lines 334-336). -/
structure PyRelation where
  source : Option String
  target : Option String
  relation : Option String
deriving DecidableEq, Repr

/-- One element of `extraction_results` (lines 311-312). -/
structure ExtractionResult where
  source : Option String
  entities : List PyEntity
  relations : List PyRelation
deriving DecidableEq, Repr

/-- `relation_type.upper().replace(chr(32), chr(95))` (line 342). -/
def sanitizeRelType (s : String) : String := pyReplaceChar (pyUpper s) ' ' '_'

/-- The relationship type a relation dict is upserted with (lines 336, 342):
the `relation` key defaulting to `RELATED_TO`, then sanitized. -/
def relTypeOf (rel : PyRelation) : String :=
  sanitizeRelType (rel.relation.getD "RELATED_TO")

/-- The entity loop of one extraction result (graphrag_agent.py lines
315-330), threading the graph and the `added_entities` counter. -/
def ingestEntities (labelOk : String → Bool) (st : GState × Nat)
    (es : List PyEntity) : GState × Nat :=
  es.foldl (fun st e =>
    let etype := e.type.getD "Entity"
    let ename := e.name.getD ""
    if ename.isEmpty then st
    else if labelOk etype then (mergeNode st.1 etype ename, st.2 + 1)
    else st) st

/-- The relation loop of one extraction result (graphrag_agent.py lines
333-353), threading the graph and the `added_relations` counter. -/
def ingestRelations (relTypeOk : String → Bool) (st : GState × Nat)
    (rels : List PyRelation) : GState × Nat :=
  rels.foldl (fun st r =>
    let s := r.source.getD ""
    let t := r.target.getD ""
    if s.isEmpty ∨ t.isEmpty then st
    else
      let rt := relTypeOf r
      if relTypeOk rt then (mergeEdge st.1 s rt t, st.2 + 1)
      else st) st

/-- `add_entities_to_graph` (graphrag_agent.py lines 294-359): returns the
final graph with the `entities_added` and `relations_added` counts. -/
def add_entities_to_graph (labelOk relTypeOk : String → Bool) (g : GState)
    (results : List ExtractionResult) : GState × Nat × Nat :=
  results.foldl (fun acc res =>
    let (g1, ne) := ingestEntities labelOk (acc.1, acc.2.1) res.entities
    let (g2, nr) := ingestRelations relTypeOk (g1, acc.2.2) res.relations
    (g2, ne, nr)) (g, 0, 0)

/-! ## Theorems -/

/-- C6: keyword extraction is a deterministic, order-preserving filter of
the lowercased, `?`/`,`-stripped, whitespace-split question: it keeps, in
first-occurrence order, exactly the tokens outside the fixed bilingual
stopword set of length strictly greater than 2; on the question
`What are Apple's main risks?` it yields `[apple's, main, risks]`. -/
theorem extract_keywords_spec :
    extract_keywords ("What are Apple" ++ apos ++ "s main risks?")
      = ["apple" ++ apos ++ "s", "main", "risks"] ∧
    (∀ q : String, (extract_keywords q).Sublist (queryWords q)) ∧
    ∀ q w : String,
      w ∈ extract_keywords q ↔
        w ∈ queryWords q ∧ ¬ stopwords.contains w ∧ w.length > 2 := by
  refine ⟨by decide, fun q => List.filter_sublist _, fun q w => ?_⟩
  simp [extract_keywords, List.mem_filter]

/-- C2: when the stripped context is empty, `_generate_answer` returns the
fixed refusal message with an empty citation list, and the result does not
depend on the generative model (the model is never invoked). -/
theorem generate_answer_empty_context (llm llm' : String → Except String String)
    (q context : String) (vr : List Evidence)
    (h : (pyStrip context).isEmpty = true) :
    generate_answer llm q context vr = (refusalMsg, []) ∧
    generate_answer llm q context vr = generate_answer llm' q context vr := by
  simp [generate_answer, h]

/-- Witness for C2 at the all-whitespace context `"  "`, with two oracles
that would disagree if ever consulted. -/
theorem generate_answer_empty_context_witness :
    generate_answer (fun _ => .ok "yes") "q" "  " [] = (refusalMsg, []) ∧
    generate_answer (fun _ => .ok "yes") "q" "  " []
      = generate_answer (fun _ => .error "down") "q" "  " [] :=
  generate_answer_empty_context (fun _ => .ok "yes") (fun _ => .error "down")
    "q" "  " [] (by decide)

/-- C3 counterexample: a hit whose distance is present and equal to 0 gets
relevance 0, not `1 - 0 = 1` — Python's `1 - dist if dist else 0` treats a
zero distance like an absent one, so relevance is 0 at a present distance. -/
theorem relevance_zero_distance_counterexample :
    (mkEvidence (some "doc") [("ticker", "AAPL")] (some 0)).relevance = 0 ∧
    (1 : ℚ) - 0 = 1 ∧
    (mkEvidence (some "doc") [("ticker", "AAPL")] (some 0)).relevance ≠ 1 - 0 := by
  refine ⟨by decide, by norm_num, by norm_num [mkEvidence, relevanceOf]⟩

/-- C3 (amended): the relevanceScore of a hit equals `1 - distance` whenever
the distance is present and nonzero, and 0 when the distance is absent or
zero; the value is not clamped, so it exceeds 1 for negative distances and
is negative for distances above 1. -/
theorem relevance_score_spec (doc : Option String) (meta : Metad) (d : ℚ)
    (hd : d ≠ 0) :
    (mkEvidence doc meta (some d)).relevance = 1 - d ∧
    (mkEvidence doc meta none).relevance = 0 ∧
    (mkEvidence doc meta (some 0)).relevance = 0 ∧
    (d < 0 → 1 < (mkEvidence doc meta (some d)).relevance) ∧
    (1 < d → (mkEvidence doc meta (some d)).relevance < 0) := by
  have h1 : (mkEvidence doc meta (some d)).relevance = 1 - d := by
    simp [mkEvidence, relevanceOf, hd]
  exact ⟨h1, by simp [mkEvidence, relevanceOf], by simp [mkEvidence, relevanceOf],
    fun h => by rw [h1]; linarith, fun h => by rw [h1]; linarith⟩

/-- Witness for C3 (amended) at distance 2: relevance `1 - 2 = -1`,
outside `[0, 1]`. -/
theorem relevance_score_spec_witness :
    (mkEvidence none [] (some 2)).relevance = 1 - 2 ∧
    (mkEvidence none [] none).relevance = 0 ∧
    (mkEvidence none [] (some 0)).relevance = 0 ∧
    ((2 : ℚ) < 0 → 1 < (mkEvidence none [] (some 2)).relevance) ∧
    ((1 : ℚ) < 2 → (mkEvidence none [] (some 2)).relevance < 0) :=
  relevance_score_spec none [] 2 (by norm_num)

/-- The citation loop is the filter-map over evidence with truthy
(non-empty) metadata, preserving input order. -/
theorem extractCitations_eq (vr : List Evidence) :
    extractCitations vr = (vr.filter (fun c => ¬ c.metadata = [])).map citationOf := by
  suffices h : ∀ acc : List Citation,
      vr.foldl (fun acc ctx => if ctx.metadata = [] then acc else acc ++ [citationOf ctx]) acc
        = acc ++ (vr.filter (fun c => ¬ c.metadata = [])).map citationOf by
    simpa [extractCitations] using h []
  induction vr with
  | nil => simp
  | cons c cs ih =>
    intro acc
    by_cases hc : c.metadata = [] <;> simp [hc, ih, List.filter_cons]

/-- C1: on a successful generator call, the citation list is exactly one
citation per vector evidence item with non-empty metadata, in input order,
each carrying the metadata ticker (default `Unknown`), section (default
`document`), url locator (default empty) and the relevance rounded to 3
decimals. -/
theorem citations_spec (llm : String → Except String String)
    (q context resp : String) (vr : List Evidence)
    (hc : (pyStrip context).isEmpty = false)
    (hr : llm (buildPrompt q context) = .ok resp) :
    (generate_answer llm q context vr).2
      = (vr.filter (fun c => ¬ c.metadata = [])).map citationOf ∧
    (generate_answer llm q context vr).2.length
      = vr.countP (fun c => ¬ c.metadata = []) ∧
    ∀ ctx : Evidence, citationOf ctx =
      ⟨metaGetD ctx.metadata "ticker" "Unknown",
       metaGetD ctx.metadata "section" "document",
       metaGetD ctx.metadata "url" "",
       round3 ctx.relevance⟩ := by
  have h2 : (generate_answer llm q context vr).2 = extractCitations vr := by
    simp [generate_answer, hc, hr]
  rw [h2, extractCitations_eq]
  exact ⟨rfl, by rw [List.countP_eq_length_filter, List.length_map], fun ctx => rfl⟩

/-- Witness for C1: two evidence items, the second with an empty metadata
dict, yield exactly one citation. -/
theorem citations_spec_witness :
    (generate_answer (fun _ => .ok "ans") "q" "ctx"
        [⟨"c1", [("ticker", "META")], 1/2, "vector"⟩, ⟨"c2", [], 0, "vector"⟩]).2
      = ([(⟨"c1", [("ticker", "META")], 1/2, "vector"⟩ : Evidence),
          ⟨"c2", [], 0, "vector"⟩].filter (fun c => ¬ c.metadata = [])).map citationOf ∧
    (generate_answer (fun _ => .ok "ans") "q" "ctx"
        [⟨"c1", [("ticker", "META")], 1/2, "vector"⟩, ⟨"c2", [], 0, "vector"⟩]).2.length
      = ([(⟨"c1", [("ticker", "META")], 1/2, "vector"⟩ : Evidence),
          ⟨"c2", [], 0, "vector"⟩] : List Evidence).countP (fun c => ¬ c.metadata = []) ∧
    ∀ ctx : Evidence, citationOf ctx =
      ⟨metaGetD ctx.metadata "ticker" "Unknown",
       metaGetD ctx.metadata "section" "document",
       metaGetD ctx.metadata "url" "",
       round3 ctx.relevance⟩ :=
  citations_spec (fun _ => .ok "ans") "q" "ctx" "ans"
    [⟨"c1", [("ticker", "META")], 1/2, "vector"⟩, ⟨"c2", [], 0, "vector"⟩]
    (by decide) rfl

/-- Every evidence item in the list contributes its 1500-unit content
truncation to the enumerated document-zone parts, at any enumeration
offset. -/
theorem mem_vector_zone (vc : List Evidence) (ctx : Evidence) (h : ctx ∈ vc) :
    ∀ k : Nat, pySlice ctx.content 1500
      ∈ (vc.enumFrom k).flatMap (fun p => vectorParts (p.1 + 1) p.2) := by
  induction vc with
  | nil => cases h
  | cons c cs ih =>
    intro k
    rcases List.mem_cons.mp h with rfl | hmem
    · exact List.mem_append_left _ (by simp [vectorParts])
    · exact List.mem_append_right _ (ih hmem (k + 1))

/-- C7: each vector evidence item's content enters the assembled context as
its prefix of at most 1500 units — the item is truncated, never dropped —
and composed with the 2000-unit cap of `_vector_search` a document of any
length (e.g. 5000 units) contributes exactly its first 1500 units. -/
theorem context_truncation_spec (vc : List Evidence) (gp : List String)
    (ctx : Evidence) (h : ctx ∈ vc) :
    (∀ doc : String, pySlice (pySlice doc 2000) 1500 = pySlice doc 1500) ∧
    pySlice ctx.content 1500 ∈ contextParts vc gp ∧
    (pySlice ctx.content 1500).data <+: ctx.content.data ∧
    (pySlice ctx.content 1500).length ≤ 1500 := by
  refine ⟨fun doc => ?_, ?_, List.take_prefix _ _, ?_⟩
  · show (⟨(doc.data.take 2000).take 1500⟩ : String) = ⟨doc.data.take 1500⟩
    rw [List.take_take]
    norm_num
  · have hne : vc.isEmpty = false := by
      cases vc with
      | nil => cases h
      | cons a l => rfl
    unfold contextParts
    rw [hne]
    exact List.mem_append_left _
      (List.mem_cons_of_mem _ (by simpa [List.enum] using mem_vector_zone vc ctx h 0))
  · show (ctx.content.data.take 1500).length ≤ 1500
    exact (List.length_take_le _ _)

/-- Witness for C7: a 5000-character document enters the context as its
first 1500 characters. -/
theorem context_truncation_spec_witness :
    (∀ doc : String, pySlice (pySlice doc 2000) 1500 = pySlice doc 1500) ∧
    pySlice (⟨"", [("ticker", "META")], 1, "vector"⟩ : Evidence).content 1500
      ∈ contextParts [⟨"", [("ticker", "META")], 1, "vector"⟩] [] ∧
    (pySlice (⟨"", [("ticker", "META")], 1, "vector"⟩ : Evidence).content 1500).data
      <+: (⟨"", [("ticker", "META")], 1, "vector"⟩ : Evidence).content.data ∧
    (pySlice (⟨"", [("ticker", "META")], 1, "vector"⟩ : Evidence).content 1500).length
      ≤ 1500 :=
  context_truncation_spec [⟨"", [("ticker", "META")], 1, "vector"⟩] []
    ⟨"", [("ticker", "META")], 1, "vector"⟩ (by simp)

/-- A successful `_graph_search` body splits into a successful entity phase
followed by a successful path phase on those entities. -/
theorem graphSearchBody_ok (store : GraphStore) (q : String)
    (ents : List GEntity) (paths : List GraphPath)
    (h : graphSearchBody store q = .ok (ents, paths)) :
    searchEntities store ((extract_keywords q).take 5) = .ok ents ∧
    searchPaths store ents = .ok paths := by
  unfold graphSearchBody at h
  cases hE : searchEntities store ((extract_keywords q).take 5) with
  | error e =>
    rw [hE] at h
    exact absurd h (by simp [Bind.bind, Except.bind])
  | ok l =>
    rw [hE] at h
    have h1 : (searchPaths store l >>= fun p => pure (l, p))
        = Except.ok (ents, paths) := h
    cases hP : searchPaths store l with
    | error e =>
      rw [hP] at h1
      exact absurd h1 (by simp [Bind.bind, Except.bind])
    | ok p =>
      rw [hP] at h1
      have h2 : (Except.ok (l, p) : Except String (List GEntity × List GraphPath))
          = Except.ok (ents, paths) := h1
      obtain ⟨rfl, rfl⟩ := Prod.mk.injEq .. |>.mp (Except.ok.inj h2)
      exact ⟨rfl, hP⟩

/-- C4: on a successful graph search, at most 10 paths are returned, no
path exists when no entity matched, and every returned path is anchored at
the first matched entity's ticker — no other entity is ever expanded. -/
theorem graph_single_anchor (store : GraphStore) (q : String)
    (ents : List GEntity) (paths : List GraphPath)
    (h : graphSearchBody store q = .ok (ents, paths)) :
    paths.length ≤ 10 ∧
    (ents = [] → paths = []) ∧
    ∀ p ∈ paths, ∃ e rest, ents = e :: rest ∧
      e.data.lookup "ticker" = some p.source := by
  obtain ⟨-, hP⟩ := graphSearchBody_ok store q ents paths h
  cases hents : ents with
  | nil =>
    rw [hents] at hP
    simp only [searchPaths, Pure.pure, Except.pure, Except.ok.injEq] at hP
    simp [← hP]
  | cons e rest =>
    rw [hents] at hP
    cases hT : e.data.lookup "ticker" with
    | none =>
      simp [searchPaths, hT, Pure.pure, Except.pure] at hP
      simp [hP]
    | some t =>
      by_cases hte : t.isEmpty
      · simp [searchPaths, hT, hte, Pure.pure, Except.pure] at hP
        simp [hP]
      · cases hR : store.pathsFrom t with
        | error err =>
          simp [searchPaths, hT, hte, hR, Bind.bind, Except.bind] at hP
        | ok rows =>
          simp [searchPaths, hT, hte, hR, Bind.bind, Except.bind,
            Pure.pure, Except.pure] at hP
          subst hP
          refine ⟨List.length_take_le _ _, by simp, ?_⟩
          intro p hp
          obtain ⟨r, -, rfl⟩ := List.mem_map.mp (List.mem_of_mem_take hp)
          exact ⟨e, rest, rfl, hT⟩

/-- Witness for C4: two keywords both match the `META` company (so two
entities accumulate), yet the single returned path is anchored at the first
entity's ticker. -/
theorem graph_single_anchor_witness :
    ([(⟨"META", "HAS_SECTOR", "Sector", some "Technology"⟩ : GraphPath)].length ≤ 10) ∧
    (([⟨"Company", [("ticker", "META")], "graph"⟩,
       ⟨"Company", [("ticker", "META")], "graph"⟩] : List GEntity) = [] →
      [(⟨"META", "HAS_SECTOR", "Sector", some "Technology"⟩ : GraphPath)] = []) ∧
    ∀ p ∈ [(⟨"META", "HAS_SECTOR", "Sector", some "Technology"⟩ : GraphPath)],
      ∃ e rest, ([⟨"Company", [("ticker", "META")], "graph"⟩,
          ⟨"Company", [("ticker", "META")], "graph"⟩] : List GEntity) = e :: rest ∧
        e.data.lookup "ticker" = some p.source :=
  graph_single_anchor
    ⟨fun _ => .ok [[("ticker", "META")]],
     fun _ => .ok [⟨"HAS_SECTOR", "Sector", some "Technology"⟩]⟩
    "meta risks"
    [⟨"Company", [("ticker", "META")], "graph"⟩,
     ⟨"Company", [("ticker", "META")], "graph"⟩]
    [⟨"META", "HAS_SECTOR", "Sector", some "Technology"⟩] rfl

/-- C5: if any store operation inside the `_graph_search` body raises, the
whole search returns `([], [])`, discarding whatever was accumulated, and
the error never propagates past the boundary. -/
theorem graph_search_error_spec (store : GraphStore) (q err : String)
    (h : graphSearchBody store q = .error err) :
    graph_search store q = ([], []) := by
  simp [graph_search, h]

/-- Witness for C5: the company probes succeed (two entities accumulate) but
the path query fails, and the search still returns `([], [])`. -/
theorem graph_search_error_spec_witness :
    graph_search ⟨fun _ => .ok [[("ticker", "ACME")]], fun _ => .error "down"⟩
      "acme revenue" = ([], []) :=
  graph_search_error_spec
    ⟨fun _ => .ok [[("ticker", "ACME")]], fun _ => .error "down"⟩
    "acme revenue" "down" rfl

/-- C9: when the first matched entity has no ticker property (or an empty
one), no one-hop expansion happens and the path list is empty, even if
later entities do carry tickers. -/
theorem graph_no_ticker_no_paths (store : GraphStore) (q : String)
    (e : GEntity) (rest : List GEntity) (paths : List GraphPath)
    (h : graphSearchBody store q = .ok (e :: rest, paths))
    (ht : e.data.lookup "ticker" = none ∨ e.data.lookup "ticker" = some "") :
    paths = [] := by
  obtain ⟨-, hP⟩ := graphSearchBody_ok store q (e :: rest) paths h
  rcases ht with ht | ht
  · simp [searchPaths, ht, Pure.pure, Except.pure] at hP
    exact hP
  · have he : ("" : String).isEmpty = true := rfl
    simp [searchPaths, ht, he, Pure.pure, Except.pure] at hP
    exact hP

/-- Witness for C9: the first matched entity (a name-only node) has no
ticker while the second does, and no path is returned. -/
theorem graph_no_ticker_no_paths_witness : ([] : List GraphPath) = [] :=
  graph_no_ticker_no_paths
    ⟨fun kw => if kw = "acme" then .ok [[("name", "Acme")]]
       else .ok [[("ticker", "META")]],
     fun _ => .ok [⟨"R", "T", some "x"⟩]⟩
    "acme meta" ⟨"Company", [("name", "Acme")], "graph"⟩
    [⟨"Company", [("ticker", "META")], "graph"⟩] [] rfl (Or.inl rfl)

/-- Ingesting a single extraction holding one well-formed entity merges its
node and reports exactly one attempted merge, from any starting graph. -/
theorem ingest_single_entity (labelOk relTypeOk : String → Bool) (g : GState)
    (e : PyEntity) (src : Option String)
    (hname : (e.name.getD "").isEmpty = false)
    (hok : labelOk (e.type.getD "Entity") = true) :
    add_entities_to_graph labelOk relTypeOk g [⟨src, [e], []⟩]
      = (mergeNode g (e.type.getD "Entity") (e.name.getD ""), 1, 0) := by
  simp [add_entities_to_graph, ingestEntities, ingestRelations, hname, hok]

/-- C8: merging the same named entity a second time is idempotent on the
graph — the node keyed by its label and name is still there exactly once —
while `entities_added` reports 1 again on the second call: the counts tally
attempted successful merges, not net new nodes. -/
theorem ingest_idempotent_counts (labelOk relTypeOk : String → Bool)
    (g g1 g2 : GState) (n1 m1 n2 m2 : Nat) (e : PyEntity) (src : Option String)
    (hname : (e.name.getD "").isEmpty = false)
    (hok : labelOk (e.type.getD "Entity") = true)
    (hnew : (e.type.getD "Entity", e.name.getD "") ∉ g.nodes)
    (h1 : add_entities_to_graph labelOk relTypeOk g [⟨src, [e], []⟩] = (g1, n1, m1))
    (h2 : add_entities_to_graph labelOk relTypeOk g1 [⟨src, [e], []⟩] = (g2, n2, m2)) :
    g2 = g1 ∧ n1 = 1 ∧ n2 = 1 ∧
    g2.nodes.count (e.type.getD "Entity", e.name.getD "") = 1 := by
  rw [ingest_single_entity labelOk relTypeOk g e src hname hok] at h1
  simp only [Prod.mk.injEq] at h1
  obtain ⟨hg1, hn1, -⟩ := h1
  rw [ingest_single_entity labelOk relTypeOk g1 e src hname hok] at h2
  simp only [Prod.mk.injEq] at h2
  obtain ⟨hg2, hn2, -⟩ := h2
  have hnodes : g1.nodes
      = g.nodes ++ [(e.type.getD "Entity", e.name.getD "")] := by
    rw [← hg1]; simp [mergeNode, hnew]
  have hmem : (e.type.getD "Entity", e.name.getD "") ∈ g1.nodes := by
    rw [hnodes]; simp
  have hidem : g2 = g1 := by rw [← hg2]; simp [mergeNode, hmem]
  refine ⟨hidem, hn1.symm, hn2.symm, ?_⟩
  rw [hidem, hnodes, List.count_append, List.count_eq_zero.mpr hnew]
  simp

/-- Witness for C8: merging `{name: Acme, type: Organization}` into the
empty graph twice leaves one `(Organization, Acme)` node while each call
reports `entities_added = 1`. -/
theorem ingest_idempotent_counts_witness :
    (⟨[("Organization", "Acme")], []⟩ : GState) = ⟨[("Organization", "Acme")], []⟩ ∧
    1 = 1 ∧ 1 = 1 ∧
    (⟨[("Organization", "Acme")], []⟩ : GState).nodes.count ("Organization", "Acme")
      = 1 :=
  ingest_idempotent_counts (fun _ => true) (fun _ => true)
    ⟨[], []⟩ ⟨[("Organization", "Acme")], []⟩ ⟨[("Organization", "Acme")], []⟩
    1 0 1 0 ⟨some "Organization", some "Acme"⟩ (some "doc-1")
    rfl rfl (by simp) rfl rfl

/-- C10: a relation with non-empty endpoint names is upserted under the
relationship type obtained from its label defaulting to `RELATED_TO` when
the label is absent, uppercased with spaces replaced by underscores when
present; the directed edge lands in the graph when both endpoints exist. -/
theorem relation_upsert_spec (labelOk relTypeOk : String → Bool)
    (g : GState) (rel : PyRelation) (src : Option String)
    (hs : (rel.source.getD "").isEmpty = false)
    (ht : (rel.target.getD "").isEmpty = false)
    (hok : relTypeOk (relTypeOf rel) = true)
    (hsn : hasNodeNamed g (rel.source.getD "") = true)
    (htn : hasNodeNamed g (rel.target.getD "") = true) :
    (rel.relation = none → relTypeOf rel = "RELATED_TO") ∧
    (∀ l, rel.relation = some l → relTypeOf rel = pyReplaceChar (pyUpper l) ' ' '_') ∧
    (rel.source.getD "", relTypeOf rel, rel.target.getD "")
      ∈ (add_entities_to_graph labelOk relTypeOk g [⟨src, [], [rel]⟩]).1.edges := by
  refine ⟨fun hn => by simp [relTypeOf, hn]; rfl,
    fun l hl => by simp [relTypeOf, hl, sanitizeRelType], ?_⟩
  have key : add_entities_to_graph labelOk relTypeOk g [⟨src, [], [rel]⟩]
      = (mergeEdge g (rel.source.getD "") (relTypeOf rel) (rel.target.getD ""), 0, 1) := by
    simp [add_entities_to_graph, ingestEntities, ingestRelations, hs, ht, hok]
  rw [key]
  unfold mergeEdge
  rw [if_pos ⟨hsn, htn⟩]
  by_cases hmem : (rel.source.getD "", relTypeOf rel, rel.target.getD "") ∈ g.edges
  · rw [if_pos hmem]; exact hmem
  · rw [if_neg hmem]; simp

/-- Witness for C10: a relation with an absent label between two existing
nodes is upserted as a `RELATED_TO` edge. -/
theorem relation_upsert_spec_witness :
    ((⟨some "Acme", some "BetaCorp", none⟩ : PyRelation).relation = none →
      relTypeOf ⟨some "Acme", some "BetaCorp", none⟩ = "RELATED_TO") ∧
    (∀ l, (⟨some "Acme", some "BetaCorp", none⟩ : PyRelation).relation = some l →
      relTypeOf ⟨some "Acme", some "BetaCorp", none⟩
        = pyReplaceChar (pyUpper l) ' ' '_') ∧
    ((⟨some "Acme", some "BetaCorp", none⟩ : PyRelation).source.getD "",
      relTypeOf ⟨some "Acme", some "BetaCorp", none⟩,
      (⟨some "Acme", some "BetaCorp", none⟩ : PyRelation).target.getD "")
      ∈ (add_entities_to_graph (fun _ => true) (fun _ => true)
          ⟨[("Company", "Acme"), ("Company", "BetaCorp")], []⟩
          [⟨some "doc-1", [], [⟨some "Acme", some "BetaCorp", none⟩]⟩]).1.edges :=
  relation_upsert_spec (fun _ => true) (fun _ => true)
    ⟨[("Company", "Acme"), ("Company", "BetaCorp")], []⟩
    ⟨some "Acme", some "BetaCorp", none⟩ (some "doc-1")
    rfl rfl rfl rfl rfl

end GraphRAG
